import Mathlib

/-!
Shallow embedding of `src/gemini-live/gemini-live-client.ts` (class
`GeminiLiveClient`), the streaming session client of the repository.

The embedding is a small-step operational semantics.  The client's fields
(`ws`, `config`, `sessionId`, `isConnected`, `messageQueue`,
`reconnectAttempts`, `maxReconnectAttempts`) become a `ClientState` record;
the surrounding JavaScript event loop (pending `setTimeout` reconnection
timers, live WebSocket objects whose handlers are still attached) becomes a
`World` record; each externally visible stimulus (a caller method call, a
transport `open`/`message`/`close`/`error` event, a timer firing) is an
`Action`, and `step : World → Action → World × Output` executes the
corresponding handler body.  `Output` records what the step put on the wire,
which events it emitted, which reconnection delays it scheduled and which
new WebSocket objects it created.

Notes on fidelity:
* JavaScript truthiness of strings/numbers (`x || d`, `if (message.sessionId)`,
  `this.sessionId || undefined`) is modelled by explicit emptiness/zero tests.
* `ws.send` can throw; the success path is taken in `step` (writes succeed on
  an open transport), and the throwing path is modelled explicitly by
  `sendMessage` with `ok := false` and by `processQueueStepFail`, one
  iteration of the `processQueue` loop in which the write throws.
* `processQueue`'s `while` loop diverges in the source in the unreachable
  configuration `isConnected && ws === null` (each iteration re-queues the
  shifted message); on that input the embedding returns the state unchanged.
  All theorems about it carry a `ws = some _` hypothesis.
* `connect()` resolving/rejecting its promise and `console.log` calls have
  no client-state effect and are not modelled; the `reconnect` event emitted
  by the continuation of `attemptReconnect`'s timer callback is modelled by
  the `timerConnectPending` flag of `World`.
-/

namespace AgentFactory.GeminiLive

/-- The `'low' | 'medium' | 'high'` string union used for `thinkingLevel` and
`mediaResolution`. -/
inductive Level where
  | low
  | medium
  | high
deriving DecidableEq

/-- `GeminiLiveConfig`: the constructor argument.  Optional fields are
`Option`; `none` is JavaScript `undefined`. -/
structure GeminiLiveConfig where
  apiKey : String
  model : Option String
  thinkingLevel : Option Level
  mediaResolution : Option Level
  vadEnabled : Option Bool
  interruptionThreshold : Option ℚ
  searchGrounding : Option Bool
deriving DecidableEq

/-- `Required<GeminiLiveConfig>`: every field present, as stored in
`this.config` after the constructor ran. -/
structure RequiredConfig where
  apiKey : String
  model : String
  thinkingLevel : Level
  mediaResolution : Level
  vadEnabled : Bool
  interruptionThreshold : ℚ
  searchGrounding : Bool
deriving DecidableEq

/-- JavaScript `x || d` for an optional string: `undefined` and the empty
string (the only falsy string) fall back to the default. -/
def jsOrString (x : Option String) (d : String) : String :=
  match x with
  | none => d
  | some s => if s = "" then d else s

/-- JavaScript `x || d` for an optional number: `undefined` and `0` (the
falsy numbers, `NaN` aside) fall back to the default. -/
def jsOrRat (x : Option ℚ) (d : ℚ) : ℚ :=
  match x with
  | none => d
  | some t => if t = 0 then d else t

/-- The `GeminiLiveClient` constructor body (lines 35-47): defaulting of
every optional field of the config.  `model`, `interruptionThreshold` and
`searchGrounding` use `||`; `vadEnabled` uses `config.vadEnabled !== false`;
`thinkingLevel` / `mediaResolution` use `||` on a non-empty string union, so
only `undefined` falls back. -/
def mkRequiredConfig (c : GeminiLiveConfig) : RequiredConfig :=
  { apiKey := c.apiKey
    model := jsOrString c.model "gemini-3.0-live"
    thinkingLevel := c.thinkingLevel.getD Level.medium
    mediaResolution := c.mediaResolution.getD Level.medium
    vadEnabled := match c.vadEnabled with
      | some false => false
      | _ => true
    interruptionThreshold := jsOrRat c.interruptionThreshold (1/2)
    searchGrounding := c.searchGrounding.getD false }

/-- The `type` discriminant of an outbound `StreamMessage`. -/
inductive MsgType where
  | text
  | audio
  | video
  | function_call
deriving DecidableEq

/-- The `data` payload of an outbound `StreamMessage`, per constructor of the
four public send methods. -/
inductive MsgData where
  | textData (s : String)
  | videoData (mimeType : String) (b64 : String)
  | audioData (sampleRate : Nat) (b64 : String)
  | funcData (name : String) (args : String)
deriving DecidableEq

/-- `StreamMessage` (lines 19-24). -/
structure StreamMessage where
  type : MsgType
  data : MsgData
  timestamp : Nat
  sessionId : Option String
deriving DecidableEq

/-- JavaScript truthiness of `this.sessionId` / `message.sessionId`:
`null`/`undefined` and `""` are falsy. -/
def truthy : Option String → Bool
  | none => false
  | some s => s ≠ ""

/-- `this.sessionId || undefined` (the lazy session-id stamp on outbound
messages). -/
def jsOrUndef (x : Option String) : Option String :=
  if truthy x then x else none

/-- A parsed inbound frame, the result of `JSON.parse` in `handleMessage`.
Fields absent in a frame are the empty string / `none`. -/
structure InFrame where
  type : String
  sessionId : Option String
  content : String
  function_name : String
  arguments : String
deriving DecidableEq

/-- Events emitted through the `EventEmitter` (`this.emit(...)`). -/
inductive Event where
  | disconnected (code : Nat) (reason : String)
  | maxReconnectReached
  | reconnected
  | socketError
  | session (sid : Option String)
  | sent (m : StreamMessage)
  | text (s : String)
  | audio (b64 : String)
  | functionCall (name : String) (args : String)
  | thinking (s : String)
  | errorMsg (s : String)
  | chunk (f : InFrame)
  | message (f : InFrame)
deriving DecidableEq

/-- A frame written to the transport (`this.ws.send(...)`), tagged below with
the id of the WebSocket object it was written to. -/
inductive Wire where
  | configFrame (c : RequiredConfig)
  | msgFrame (m : StreamMessage)
  | interruptFrame (timestamp : Nat)
deriving DecidableEq

/-- The mutable fields of a `GeminiLiveClient` instance.  `ws` holds the id
of the current WebSocket object (`none` = `null`); `nextWsId` is model
bookkeeping handing out a fresh id per `new WebSocket(...)`.
`reconnectAttempts` is `Int` so that the spec's `never negative` is a real
statement about the operations rather than a fact of the type. -/
structure ClientState where
  ws : Option Nat
  config : RequiredConfig
  sessionId : Option String
  isConnected : Bool
  messageQueue : List StreamMessage
  reconnectAttempts : Int
  maxReconnectAttempts : Int
  nextWsId : Nat
deriving DecidableEq

/-- `sendConfiguration` (lines 102-123): writes the configuration frame to
the current socket unless `ws` is `null` or the client is not connected.
No client field changes. -/
def sendConfiguration (s : ClientState) : List (Nat × Wire) :=
  match s.ws with
  | none => []
  | some w => if s.isConnected then [(w, Wire.configFrame s.config)] else []

/-- `sendMessage` (lines 248-263).  `ok` is whether `this.ws.send` succeeds;
on `!isConnected || !ws` the message is queued (`Array.prototype.push`
appends at the BACK), on a throwing send it is likewise pushed at the back
and the error propagates. -/
def sendMessage (ok : Bool) (m : StreamMessage) (s : ClientState) :
    ClientState × List (Nat × Wire) × List Event :=
  match s.ws with
  | none => ({ s with messageQueue := s.messageQueue ++ [m] }, [], [])
  | some w =>
    if s.isConnected then
      if ok then (s, [(w, Wire.msgFrame m)], [Event.sent m])
      else ({ s with messageQueue := s.messageQueue ++ [m] }, [], [])
    else ({ s with messageQueue := s.messageQueue ++ [m] }, [], [])

/-- The wire frames and events produced by the `processQueue` loop on socket
`w` when every `ws.send` succeeds: the queue is drained strictly front to
back. -/
def drainQueue (w : Nat) (q : List StreamMessage) :
    List (Nat × Wire) × List Event :=
  match q with
  | [] => ([], [])
  | m :: rest =>
    let r := drainQueue w rest
    ((w, Wire.msgFrame m) :: r.1, Event.sent m :: r.2)

/-- `processQueue` (lines 268-275), success path: while the queue is
non-empty and the client is connected, shift the front message and send it.
When not connected the loop body never runs.  (With `isConnected` and
`ws = null` the source loop diverges re-queueing the shifted message; the
embedding leaves the state unchanged there, see the file comment.) -/
def processQueue (s : ClientState) : ClientState × List (Nat × Wire) × List Event :=
  if s.isConnected then
    match s.ws with
    | some w =>
      let r := drainQueue w s.messageQueue
      ({ s with messageQueue := [] }, r.1, r.2)
    | none => (s, [], [])
  else (s, [], [])

/-- One iteration of the `processQueue` loop in which the write throws: the
front message is shifted and handed to `sendMessage`, whose catch block
pushes it at the BACK of `messageQueue`. -/
def processQueueStepFail (s : ClientState) : ClientState × List (Nat × Wire) × List Event :=
  match s.messageQueue with
  | [] => (s, [], [])
  | m :: rest =>
    if s.isConnected then sendMessage false m { s with messageQueue := rest }
    else (s, [], [])

/-- `attemptReconnect` (lines 292-312): if the attempt counter has reached
the maximum, emit `max_reconnect_reached` and return; otherwise increment
the counter FIRST, then compute `delay = 2 ** reconnectAttempts * 1000` and
schedule a `connect()` after that delay. -/
def attemptReconnect (s : ClientState) : ClientState × List Event × List Nat :=
  if s.reconnectAttempts ≥ s.maxReconnectAttempts then
    (s, [Event.maxReconnectReached], [])
  else
    let s1 := { s with reconnectAttempts := s.reconnectAttempts + 1 }
    (s1, [], [2 ^ s1.reconnectAttempts.toNat * 1000])

/-- The `open` handler (lines 62-69): set `isConnected`, zero the attempt
counter, send the configuration frame, then drain the queue. -/
def handleOpen (s : ClientState) : ClientState × List (Nat × Wire) × List Event :=
  let s1 := { s with isConnected := true, reconnectAttempts := 0 }
  let cfgWire := sendConfiguration s1
  let r := processQueue s1
  (r.1, cfgWire ++ r.2.1, r.2.2)

/-- The `close` handler (lines 83-88): clear `isConnected`, emit
`disconnect`, and ALWAYS call `attemptReconnect` — the handler has no way to
tell a caller-initiated `ws.close()` from an unexpected drop. -/
def handleClose (code : Nat) (reason : String) (s : ClientState) :
    ClientState × List Event × List Nat :=
  let s1 := { s with isConnected := false }
  let r := attemptReconnect s1
  (r.1, Event.disconnected code reason :: r.2.1, r.2.2)

/-- The typed-event dispatch of `handleMessage`'s `switch` (lines 139-173). -/
def typedEvents (f : InFrame) : List Event :=
  if f.type = "text" then [Event.text f.content]
  else if f.type = "audio" then [Event.audio f.content]
  else if f.type = "function_call" then [Event.functionCall f.function_name f.arguments]
  else if f.type = "thinking" then [Event.thinking f.content]
  else if f.type = "error" then [Event.errorMsg f.content]
  else if f.type = "chunk" then [Event.chunk f]
  else [Event.message f]

/-- `handleMessage` (lines 128-178) on an already-parsed frame: the session
id is captured only when the frame carries a truthy one AND `this.sessionId`
is still falsy, in which case the `session` event fires; then the `switch`
dispatch runs. -/
def handleMessage (f : InFrame) (s : ClientState) : ClientState × List Event :=
  if truthy f.sessionId && !(truthy s.sessionId) then
    ({ s with sessionId := f.sessionId }, Event.session f.sessionId :: typedEvents f)
  else (s, typedEvents f)

/-- `interrupt` (lines 280-287): write the interrupt frame immediately when
a socket is present and connected, otherwise do nothing — the message is
never queued. -/
def interrupt (ts : Nat) (s : ClientState) : List (Nat × Wire) :=
  match s.ws with
  | none => []
  | some w => if s.isConnected then [(w, Wire.interruptFrame ts)] else []

/-- `disconnect` (lines 317-325): if a socket is held, clear `isConnected`,
call `ws.close()` (its `close` event will still be delivered to the
handlers) and null the handle; then clear the session id and the queue.
Note the source clears `isConnected` only inside the `if (this.ws)`. -/
def disconnect (s : ClientState) : ClientState :=
  let s1 := match s.ws with
    | some _ => { s with isConnected := false, ws := none }
    | none => s
  { s1 with sessionId := none, messageQueue := [] }

/-- The message built by `sendText` (lines 183-192). -/
def mkTextMsg (sid : Option String) (t : String) (ts : Nat) : StreamMessage :=
  { type := MsgType.text, data := MsgData.textData t, timestamp := ts,
    sessionId := jsOrUndef sid }

/-- The message built by `streamVideo` (lines 197-209); `mime` defaults to
`image/jpeg` at the call sites. -/
def mkVideoMsg (sid : Option String) (mime : String) (b64 : String) (ts : Nat) :
    StreamMessage :=
  { type := MsgType.video, data := MsgData.videoData mime b64, timestamp := ts,
    sessionId := jsOrUndef sid }

/-- The message built by `streamAudio` (lines 214-226); `rate` defaults to
16000 at the call sites. -/
def mkAudioMsg (sid : Option String) (rate : Nat) (b64 : String) (ts : Nat) :
    StreamMessage :=
  { type := MsgType.audio, data := MsgData.audioData rate b64, timestamp := ts,
    sessionId := jsOrUndef sid }

/-- The message built by `callFunction` (lines 231-243). -/
def mkFuncMsg (sid : Option String) (name : String) (args : String) (ts : Nat) :
    StreamMessage :=
  { type := MsgType.function_call, data := MsgData.funcData name args,
    timestamp := ts, sessionId := jsOrUndef sid }

/-- The stimuli the client reacts to: caller method calls, transport events
for a live socket, and the firing of a scheduled reconnection timer. -/
inductive Action where
  | callConnect
  | fireTimer
  | openEvt
  | closeEvt (code : Nat) (reason : String)
  | errorEvt
  | msgEvt (f : InFrame)
  | callSendText (t : String) (ts : Nat)
  | callStreamVideo (mime : String) (b64 : String) (ts : Nat)
  | callStreamAudio (rate : Nat) (b64 : String) (ts : Nat)
  | callCallFunction (name : String) (args : String) (ts : Nat)
  | callInterrupt (ts : Nat)
  | callDisconnect
deriving DecidableEq

/-- The client plus its event-loop surroundings: `pendingTimers` counts
scheduled reconnection callbacks (the source stores no timer handle, so
nothing can cancel them); `liveSockets` counts WebSocket objects whose
terminal `close` event has not yet been delivered; `timerConnectPending`
records that the in-flight `connect()` was started by a reconnection timer,
whose continuation emits `reconnect` once the connect resolves. -/
structure World where
  client : ClientState
  pendingTimers : Nat
  liveSockets : Nat
  timerConnectPending : Bool
deriving DecidableEq

/-- What one step produced: wire writes (socket id, frame), emitted events,
scheduled reconnection delays, ids of newly created WebSocket objects. -/
structure Output where
  wire : List (Nat × Wire)
  events : List Event
  scheduled : List Nat
  opened : List Nat
deriving DecidableEq

def Output.empty : Output := { wire := [], events := [], scheduled := [], opened := [] }

def Output.append (a b : Output) : Output :=
  { wire := a.wire ++ b.wire, events := a.events ++ b.events,
    scheduled := a.scheduled ++ b.scheduled, opened := a.opened ++ b.opened }

/-- The synchronous prefix of `connect()` (lines 52-60): create a fresh
WebSocket, store it in `this.ws`, attach the handlers.  There is no guard on
the current state: this runs identically while Disconnected, Connecting or
Active. -/
def connectOp (c : ClientState) : ClientState × Nat :=
  ({ c with ws := some c.nextWsId, nextWsId := c.nextWsId + 1 }, c.nextWsId)

/-- One step of the world under a stimulus.  Transport events are delivered
only while a live socket exists; a `fireTimer` only while a timer is
pending; otherwise the step is a no-op (see `enabled`). -/
def step (w : World) (a : Action) : World × Output :=
  match a with
  | Action.callConnect =>
    let r := connectOp w.client
    ({ w with client := r.1, liveSockets := w.liveSockets + 1 },
     { Output.empty with opened := [r.2] })
  | Action.fireTimer =>
    if w.pendingTimers = 0 then (w, Output.empty)
    else
      let r := connectOp w.client
      ({ w with client := r.1, pendingTimers := w.pendingTimers - 1,
                liveSockets := w.liveSockets + 1, timerConnectPending := true },
       { Output.empty with opened := [r.2] })
  | Action.openEvt =>
    if w.liveSockets = 0 then (w, Output.empty)
    else
      let r := handleOpen w.client
      let evs := if w.timerConnectPending then r.2.2 ++ [Event.reconnected] else r.2.2
      ({ w with client := r.1, timerConnectPending := false },
       { Output.empty with wire := r.2.1, events := evs })
  | Action.closeEvt code reason =>
    if w.liveSockets = 0 then (w, Output.empty)
    else
      let r := handleClose code reason w.client
      ({ w with client := r.1, liveSockets := w.liveSockets - 1,
                pendingTimers := w.pendingTimers + r.2.2.length },
       { Output.empty with events := r.2.1, scheduled := r.2.2 })
  | Action.errorEvt =>
    if w.liveSockets = 0 then (w, Output.empty)
    else (w, { Output.empty with events := [Event.socketError] })
  | Action.msgEvt f =>
    if w.liveSockets = 0 then (w, Output.empty)
    else
      let r := handleMessage f w.client
      ({ w with client := r.1 }, { Output.empty with events := r.2 })
  | Action.callSendText t ts =>
    let r := sendMessage true (mkTextMsg w.client.sessionId t ts) w.client
    ({ w with client := r.1 }, { Output.empty with wire := r.2.1, events := r.2.2 })
  | Action.callStreamVideo mime b64 ts =>
    let r := sendMessage true (mkVideoMsg w.client.sessionId mime b64 ts) w.client
    ({ w with client := r.1 }, { Output.empty with wire := r.2.1, events := r.2.2 })
  | Action.callStreamAudio rate b64 ts =>
    let r := sendMessage true (mkAudioMsg w.client.sessionId rate b64 ts) w.client
    ({ w with client := r.1 }, { Output.empty with wire := r.2.1, events := r.2.2 })
  | Action.callCallFunction name args ts =>
    let r := sendMessage true (mkFuncMsg w.client.sessionId name args ts) w.client
    ({ w with client := r.1 }, { Output.empty with wire := r.2.1, events := r.2.2 })
  | Action.callInterrupt ts =>
    (w, { Output.empty with wire := interrupt ts w.client })
  | Action.callDisconnect =>
    ({ w with client := disconnect w.client }, Output.empty)

/-- Whether a stimulus can actually occur in the given world (transport
events need a live socket; a timer can only fire if one is pending). -/
def enabled (w : World) : Action → Bool
  | Action.fireTimer => w.pendingTimers ≠ 0
  | Action.openEvt => w.liveSockets ≠ 0
  | Action.closeEvt _ _ => w.liveSockets ≠ 0
  | Action.errorEvt => w.liveSockets ≠ 0
  | Action.msgEvt _ => w.liveSockets ≠ 0
  | _ => true

/-- Run a trace of stimuli, concatenating outputs. -/
def run (w : World) : List Action → World × Output
  | [] => (w, Output.empty)
  | a :: rest =>
    let r1 := step w a
    let r2 := run r1.1 rest
    (r2.1, Output.append r1.2 r2.2)

/-- Every stimulus of the trace is enabled at the point it occurs. -/
def traceEnabled (w : World) : List Action → Bool
  | [] => true
  | a :: rest => enabled w a && traceEnabled (step w a).1 rest

/-- A freshly constructed client (field initializers, lines 27-33, plus the
constructor): no socket, no session, disconnected, empty queue, attempt
counter 0, `maxReconnectAttempts = 3`. -/
def initWorld (c : GeminiLiveConfig) : World :=
  { client :=
      { ws := none, config := mkRequiredConfig c, sessionId := none,
        isConnected := false, messageQueue := [], reconnectAttempts := 0,
        maxReconnectAttempts := 3, nextWsId := 0 },
    pendingTimers := 0, liveSockets := 0, timerConnectPending := false }

/-- Is the action one of the four queueable send calls? -/
def isSendCall : Action → Bool
  | Action.callSendText _ _ => true
  | Action.callStreamVideo _ _ _ => true
  | Action.callStreamAudio _ _ _ => true
  | Action.callCallFunction _ _ _ => true
  | _ => false

/-- The messages a send call constructs (empty for non-send actions), given
the session id in effect. -/
def msgOfCall (sid : Option String) : Action → List StreamMessage
  | Action.callSendText t ts => [mkTextMsg sid t ts]
  | Action.callStreamVideo mime b64 ts => [mkVideoMsg sid mime b64 ts]
  | Action.callStreamAudio rate b64 ts => [mkAudioMsg sid rate b64 ts]
  | Action.callCallFunction name args ts => [mkFuncMsg sid name args ts]
  | _ => []

/-- The messages a list of send calls enqueues, in call order. -/
def queuedMsgs (sid : Option String) : List Action → List StreamMessage
  | [] => []
  | a :: rest => msgOfCall sid a ++ queuedMsgs sid rest

/-- A concrete constructor argument used by the concrete scenarios below:
only the required `apiKey` is supplied. -/
def cfgEx : GeminiLiveConfig :=
  { apiKey := "k", model := none, thinkingLevel := none, mediaResolution := none,
    vadEnabled := none, interruptionThreshold := none, searchGrounding := none }

/-- Caller connects, the socket opens, the caller hangs up, and the close
event of the very socket the caller closed is delivered.  No unexpected
close occurs anywhere in this trace. -/
def traceCallerHangup : List Action :=
  [Action.callConnect, Action.openEvt, Action.callDisconnect,
   Action.closeEvt 1000 "bye"]

/-- The caller-hangup trace followed by the firing of whatever timer the
close handler scheduled. -/
def traceCallerHangupFired : List Action :=
  traceCallerHangup ++ [Action.fireTimer]

/-- Three consecutive unexpected disconnects: the initial connection drops,
and each of the two scheduled reconnections connects at the transport level
and immediately drops again. -/
def traceThreeDrops : List Action :=
  [Action.callConnect, Action.openEvt, Action.closeEvt 1006 "",
   Action.fireTimer, Action.closeEvt 1006 "",
   Action.fireTimer, Action.closeEvt 1006 ""]

/-- Three drops, then the still-pending third reconnection also drops. -/
def traceFourDrops : List Action :=
  traceThreeDrops ++ [Action.fireTimer, Action.closeEvt 1006 ""]

/-- Four drops, then the caller connects once more and that connection also
closes. -/
def traceFourDropsThenRetry : List Action :=
  traceFourDrops ++ [Action.callConnect, Action.closeEvt 1006 ""]

/-- An unexpected drop leaves a backoff delay pending; the caller then calls
`disconnect()` while the delay is still pending; the timer later fires. -/
def traceDisconnectDuringBackoff : List Action :=
  [Action.callConnect, Action.openEvt, Action.closeEvt 1006 "",
   Action.callDisconnect, Action.fireTimer]

/-- An inbound frame carrying session id `A`. -/
def frameA : InFrame :=
  { type := "chunk", sessionId := some "A", content := "", function_name := "",
    arguments := "" }

/-- An inbound frame carrying session id `B`. -/
def frameB : InFrame :=
  { type := "chunk", sessionId := some "B", content := "", function_name := "",
    arguments := "" }

/-- Session id `A` arrives, the connection drops unexpectedly, the scheduled
reconnection succeeds and the new remote session announces id `B`. -/
def traceSessionAcrossDrop : List Action :=
  [Action.callConnect, Action.openEvt, Action.msgEvt frameA,
   Action.closeEvt 1006 "", Action.fireTimer, Action.openEvt,
   Action.msgEvt frameB]

/-- Session id `A` arrives, the caller disconnects, connects afresh, and the
new remote session announces id `B`. -/
def traceSessionAcrossHangup : List Action :=
  [Action.callConnect, Action.openEvt, Action.msgEvt frameA,
   Action.callDisconnect, Action.callConnect, Action.openEvt,
   Action.msgEvt frameB]

/-- `connect()` is called a second time while the first connection is Active. -/
def traceDoubleConnect : List Action :=
  [Action.callConnect, Action.openEvt, Action.callConnect]

/-- A message enqueued first ... -/
def msgEx1 : StreamMessage := mkTextMsg none "first" 1

/-- ... and a message enqueued after it. -/
def msgEx2 : StreamMessage := mkTextMsg none "second" 2

/-- A connected client whose queue holds `msgEx1` (enqueued first) then
`msgEx2`, about to run a `processQueue` iteration whose write throws. -/
def sFailEx : ClientState :=
  { ws := some 0, config := mkRequiredConfig cfgEx, sessionId := none,
    isConnected := true, messageQueue := [msgEx1, msgEx2],
    reconnectAttempts := 0, maxReconnectAttempts := 3, nextWsId := 1 }

/-- The world after connect-and-open: Active with socket 0. -/
def wActiveEx : World :=
  (run (initWorld cfgEx) [Action.callConnect, Action.openEvt]).1

/-- The world right after the caller-hangup-during-backoff prefix (a timer
pending, client fully disconnected). -/
def wAfterHangupEx : World :=
  (run (initWorld cfgEx) [Action.callConnect, Action.openEvt,
    Action.closeEvt 1006 "", Action.callDisconnect]).1

/-- The world right after a caller `disconnect()` of an Active connection,
before the transport delivers the close event. -/
def wJustDisconnectedEx : World :=
  (run (initWorld cfgEx) [Action.callConnect, Action.openEvt,
    Action.callDisconnect]).1

/-- The world right after `connect()` was called and before the socket
opened: Connecting, with socket 0 installed. -/
def wAfterConnectEx : World :=
  (run (initWorld cfgEx) [Action.callConnect]).1

/-- Two queueable calls made while Connecting. -/
def callsWitEx : List Action :=
  [Action.callSendText "hello" 1, Action.callStreamAudio 16000 "qq" 2]

/-- A client state with one reconnection attempt already counted. -/
def sAttemptOneEx : ClientState :=
  { sFailEx with reconnectAttempts := 1 }

/-- The world after the reconnection budget is exhausted (four consecutive
drops) and the caller opened one more connection by hand. -/
def wBudgetSpentEx : World :=
  (run (initWorld cfgEx) (traceFourDrops ++ [Action.callConnect])).1

/-- A client state holding session id `A` while Active. -/
def sSessionAEx : ClientState :=
  { sFailEx with sessionId := some "A", messageQueue := [] }

/-- A constructor argument explicitly asking for interruption threshold 0
and VAD off. -/
def cfgZeroEx : GeminiLiveConfig :=
  { cfgEx with interruptionThreshold := some 0, vadEnabled := some false }

/-! ## Helper lemmas -/

theorem Output.empty_append (o : Output) : Output.append Output.empty o = o := rfl

theorem sendMessage_not_connected (ok : Bool) (m : StreamMessage) (s : ClientState)
    (h : s.isConnected = false) :
    sendMessage ok m s = ({ s with messageQueue := s.messageQueue ++ [m] }, [], []) := by
  unfold sendMessage
  cases hw : s.ws with
  | none => rfl
  | some w => simp [h]

theorem drainQueue_eq (w : Nat) (q : List StreamMessage) :
    drainQueue w q =
      (q.map (fun m => (w, Wire.msgFrame m)), q.map Event.sent) := by
  induction q with
  | nil => rfl
  | cons m rest ih => simp [drainQueue, ih]

theorem processQueue_connected (s : ClientState) (wid : Nat)
    (hc : s.isConnected = true) (hw : s.ws = some wid) :
    processQueue s =
      ({ s with messageQueue := [] },
       s.messageQueue.map (fun m => (wid, Wire.msgFrame m)),
       s.messageQueue.map Event.sent) := by
  unfold processQueue
  rw [hw]
  simp [hc, drainQueue_eq]

theorem handleOpen_eq (s : ClientState) (wid : Nat) (hw : s.ws = some wid) :
    handleOpen s =
      ({ s with isConnected := true, reconnectAttempts := 0, messageQueue := [] },
       (wid, Wire.configFrame s.config) ::
         s.messageQueue.map (fun m => (wid, Wire.msgFrame m)),
       s.messageQueue.map Event.sent) := by
  simp only [handleOpen, sendConfiguration, processQueue, hw]
  simp [drainQueue_eq]

theorem step_send_disconnected (w : World) (a : Action)
    (hs : isSendCall a = true) (hc : w.client.isConnected = false) :
    step w a =
      ({ w with client :=
          { w.client with messageQueue :=
              w.client.messageQueue ++ msgOfCall w.client.sessionId a } },
       Output.empty) := by
  have hsm : ∀ (ok : Bool) (m : StreamMessage),
      sendMessage ok m w.client =
        ({ w.client with messageQueue := w.client.messageQueue ++ [m] }, [], []) :=
    fun ok m => sendMessage_not_connected ok m w.client hc
  cases a <;> simp [isSendCall] at hs <;>
    simp [step, msgOfCall, hsm, Output.empty]

theorem run_sends_disconnected (calls : List Action) (w : World)
    (hs : calls.all isSendCall = true) (hc : w.client.isConnected = false) :
    run w calls =
      ({ w with client :=
          { w.client with messageQueue :=
              w.client.messageQueue ++ queuedMsgs w.client.sessionId calls } },
       Output.empty) := by
  induction calls generalizing w with
  | nil => simp [run, queuedMsgs]
  | cons a rest ih =>
    rw [List.all_cons, Bool.and_eq_true] at hs
    have h1 := step_send_disconnected w a hs.1 hc
    have h2 := ih ({ w with client :=
        { w.client with messageQueue :=
            w.client.messageQueue ++ msgOfCall w.client.sessionId a } }) hs.2 hc
    simp only [run, h1, h2, Output.empty_append, queuedMsgs, List.append_assoc]

theorem attemptReconnect_below (s : ClientState)
    (h : s.reconnectAttempts < s.maxReconnectAttempts) :
    attemptReconnect s =
      ({ s with reconnectAttempts := s.reconnectAttempts + 1 }, [],
       [2 ^ (s.reconnectAttempts + 1).toNat * 1000]) := by
  unfold attemptReconnect
  rw [if_neg (not_le.mpr h)]

theorem attemptReconnect_at_max (s : ClientState)
    (h : s.maxReconnectAttempts ≤ s.reconnectAttempts) :
    attemptReconnect s = (s, [Event.maxReconnectReached], []) := by
  unfold attemptReconnect
  rw [if_pos h]

theorem attemptReconnect_sessionId (s : ClientState) :
    (attemptReconnect s).1.sessionId = s.sessionId := by
  unfold attemptReconnect
  split <;> rfl

theorem attemptReconnect_attempts_nonneg (s : ClientState)
    (h : 0 ≤ s.reconnectAttempts) :
    0 ≤ (attemptReconnect s).1.reconnectAttempts := by
  unfold attemptReconnect
  split
  · exact h
  · simp only []
    omega

theorem sendMessage_reconnectAttempts (ok : Bool) (m : StreamMessage) (s : ClientState) :
    (sendMessage ok m s).1.reconnectAttempts = s.reconnectAttempts := by
  unfold sendMessage
  cases s.ws
  · rfl
  · dsimp only
    split
    · split <;> rfl
    · rfl

theorem processQueue_reconnectAttempts (s : ClientState) :
    (processQueue s).1.reconnectAttempts = s.reconnectAttempts := by
  unfold processQueue
  split
  · split <;> rfl
  · rfl

theorem handleOpen_resets (s : ClientState) :
    (handleOpen s).1.reconnectAttempts = 0 := by
  unfold handleOpen
  rw [processQueue_reconnectAttempts]

theorem handleMessage_reconnectAttempts (f : InFrame) (s : ClientState) :
    (handleMessage f s).1.reconnectAttempts = s.reconnectAttempts := by
  unfold handleMessage
  split <;> rfl

theorem disconnect_reconnectAttempts (s : ClientState) :
    (disconnect s).reconnectAttempts = s.reconnectAttempts := by
  unfold disconnect
  cases s.ws <;> rfl

theorem step_attempts_nonneg (w : World) (a : Action)
    (h : 0 ≤ w.client.reconnectAttempts) :
    0 ≤ (step w a).1.client.reconnectAttempts := by
  cases a with
  | callConnect => exact h
  | fireTimer =>
    simp only [step]
    split
    · exact h
    · exact h
  | openEvt =>
    simp only [step]
    split
    · exact h
    · simp only [handleOpen_resets]; omega
  | closeEvt code reason =>
    simp only [step, handleClose]
    split
    · exact h
    · exact attemptReconnect_attempts_nonneg _ h
  | errorEvt =>
    simp only [step]
    split <;> exact h
  | msgEvt f =>
    simp only [step]
    split
    · exact h
    · rw [handleMessage_reconnectAttempts]; exact h
  | callSendText t ts =>
    simp only [step, sendMessage_reconnectAttempts]; exact h
  | callStreamVideo mime b64 ts =>
    simp only [step, sendMessage_reconnectAttempts]; exact h
  | callStreamAudio rate b64 ts =>
    simp only [step, sendMessage_reconnectAttempts]; exact h
  | callCallFunction name args ts =>
    simp only [step, sendMessage_reconnectAttempts]; exact h
  | callInterrupt ts => exact h
  | callDisconnect =>
    simp only [step, disconnect_reconnectAttempts]; exact h

theorem run_attempts_nonneg (tr : List Action) (w : World)
    (h : 0 ≤ w.client.reconnectAttempts) :
    0 ≤ (run w tr).1.client.reconnectAttempts := by
  induction tr generalizing w with
  | nil => exact h
  | cons a rest ih => exact ih (step w a).1 (step_attempts_nonneg w a h)

theorem typedEvents_no_session (f : InFrame) (sid : Option String) :
    Event.session sid ∉ typedEvents f := by
  unfold typedEvents
  repeat' split
  all_goals simp

theorem Output.append_empty (o : Output) : Output.append o Output.empty = o := by
  simp [Output.append, Output.empty]

theorem Output.append_assoc (a b c : Output) :
    Output.append (Output.append a b) c = Output.append a (Output.append b c) := by
  simp [Output.append]

theorem run_append (l1 l2 : List Action) (w : World) :
    run w (l1 ++ l2) =
      ((run (run w l1).1 l2).1,
       Output.append (run w l1).2 (run (run w l1).1 l2).2) := by
  induction l1 generalizing w with
  | nil => simp [run, Output.empty_append]
  | cons a rest ih => simp [run, ih, Output.append_assoc]

theorem handleOpen_wire (s : ClientState) (wid : Nat) (hw : s.ws = some wid) :
    (handleOpen s).2.1 =
      (wid, Wire.configFrame s.config) ::
        s.messageQueue.map (fun m => (wid, Wire.msgFrame m)) := by
  rw [handleOpen_eq s wid hw]

theorem run_open_wire (w2 : World) (wid : Nat)
    (hw : w2.client.ws = some wid) (hl : w2.liveSockets ≠ 0) :
    (run w2 [Action.openEvt]).2.wire =
      (wid, Wire.configFrame w2.client.config) ::
        w2.client.messageQueue.map (fun m => (wid, Wire.msgFrame m)) := by
  simp only [run, Output.append_empty, step]
  rw [if_neg hl]
  dsimp only
  rw [handleOpen_wire w2.client wid hw]

theorem run_sends_disconnected_fields (calls : List Action) (w : World)
    (hs : calls.all isSendCall = true) (hc : w.client.isConnected = false) :
    (run w calls).2 = Output.empty ∧
    (run w calls).1.client.messageQueue =
      w.client.messageQueue ++ queuedMsgs w.client.sessionId calls ∧
    (run w calls).1.client.ws = w.client.ws ∧
    (run w calls).1.client.config = w.client.config ∧
    (run w calls).1.liveSockets = w.liveSockets := by
  rw [run_sends_disconnected calls w hs hc]
  exact ⟨rfl, rfl, rfl, rfl, rfl⟩

/-! ## Claim theorems -/

/-- C1: for every sequence of `sendText`/`streamVideo`/`streamAudio`/
`callFunction` calls made while the client is not connected (any connection
instance: a socket `wid` is installed but not yet open), nothing reaches the
transport during those calls, and once the connection becomes Active (the
`open` event) the client writes exactly one configuration frame first and
then the queued messages in exactly the order they were enqueued — so no
caller-originated message precedes that connection instance's configuration
frame on the wire. -/
theorem C1_config_frame_first_then_fifo (w : World) (wid : Nat) (calls : List Action)
    (h : calls.all isSendCall = true)
    (hc : w.client.isConnected = false)
    (hw : w.client.ws = some wid)
    (hq : w.client.messageQueue = [])
    (hl : w.liveSockets ≠ 0) :
    (run w calls).2.wire = [] ∧
    (run w (calls ++ [Action.openEvt])).2.wire =
      (wid, Wire.configFrame w.client.config) ::
        (queuedMsgs w.client.sessionId calls).map (fun m => (wid, Wire.msgFrame m)) := by
  obtain ⟨ho, hq2, hw2, hcfg2, hl2⟩ := run_sends_disconnected_fields calls w h hc
  refine ⟨by rw [ho]; rfl, ?_⟩
  rw [run_append, ho, Output.empty_append,
    run_open_wire (run w calls).1 wid (hw2.trans hw) (by rw [hl2]; exact hl),
    hq2, hq, hcfg2]
  simp

/-- C1 witness: two concrete calls made while Connecting; once the socket
opens, the wire carries the configuration frame and then the two messages
in call order. -/
theorem C1_config_frame_first_then_fifo_witness :
    callsWitEx.all isSendCall = true ∧
    wAfterConnectEx.client.isConnected = false ∧
    wAfterConnectEx.client.ws = some 0 ∧
    wAfterConnectEx.client.messageQueue = [] ∧
    wAfterConnectEx.liveSockets ≠ 0 ∧
    ((run wAfterConnectEx callsWitEx).2.wire = [] ∧
     (run wAfterConnectEx (callsWitEx ++ [Action.openEvt])).2.wire =
       (0, Wire.configFrame wAfterConnectEx.client.config) ::
         (queuedMsgs wAfterConnectEx.client.sessionId callsWitEx).map
           (fun m => (0, Wire.msgFrame m))) :=
  ⟨by decide, by decide, by decide, by decide, by decide,
   C1_config_frame_first_then_fifo wAfterConnectEx 0 callsWitEx
     (by decide) (by decide) (by decide) (by decide) (by decide)⟩

/-- C2 counterexample: in a trace whose only close is the one caused by the
caller's own `disconnect()` (normal close, code 1000), the close handler
still schedules a reconnection attempt (`scheduled = [2000]`, one pending
timer), and when the timer fires the attempt executes and opens a second
socket — refuting the claim that a caller-initiated disconnect never
triggers a reconnection attempt. -/
theorem C2_counterexample_disconnect_triggers_reconnect :
    traceEnabled (initWorld cfgEx) traceCallerHangupFired = true ∧
    (run (initWorld cfgEx) traceCallerHangup).2.scheduled = [2000] ∧
    (run (initWorld cfgEx) traceCallerHangup).1.pendingTimers = 1 ∧
    (run (initWorld cfgEx) traceCallerHangupFired).2.opened = [0, 1] := by
  refine ⟨by decide, by decide, by decide, by decide⟩

/-- C2 amended: `disconnect()` itself writes, emits and schedules nothing,
but the client does not distinguish a caller-initiated close from an
unexpected one — EVERY delivered transport close event invokes the
reconnection controller, and whenever the attempt budget is not exhausted it
schedules exactly one reconnection attempt, including the close that follows
a caller's `disconnect()`. -/
theorem C2_amended_every_close_schedules_reconnect (w : World) (code : Nat)
    (reason : String) :
    (step w Action.callDisconnect).2 = Output.empty ∧
    (w.liveSockets ≠ 0 →
     w.client.reconnectAttempts < w.client.maxReconnectAttempts →
      (step w (Action.closeEvt code reason)).2.scheduled =
        [2 ^ (w.client.reconnectAttempts + 1).toNat * 1000] ∧
      (step w (Action.closeEvt code reason)).1.pendingTimers = w.pendingTimers + 1) := by
  refine ⟨rfl, fun hl hlt => ?_⟩
  simp only [step, handleClose]
  rw [if_neg hl]
  rw [attemptReconnect_below { w.client with isConnected := false } hlt]
  exact ⟨rfl, rfl⟩

/-- C2 amended witness: instantiated at the world right after the caller
disconnected an Active connection. -/
theorem C2_amended_every_close_schedules_reconnect_witness :
    (step wJustDisconnectedEx Action.callDisconnect).2 = Output.empty ∧
    wJustDisconnectedEx.liveSockets ≠ 0 ∧
    wJustDisconnectedEx.client.reconnectAttempts <
      wJustDisconnectedEx.client.maxReconnectAttempts ∧
    (step wJustDisconnectedEx (Action.closeEvt 1000 "bye")).2.scheduled =
      [2 ^ (wJustDisconnectedEx.client.reconnectAttempts + 1).toNat * 1000] ∧
    (step wJustDisconnectedEx (Action.closeEvt 1000 "bye")).1.pendingTimers =
      wJustDisconnectedEx.pendingTimers + 1 :=
  ⟨(C2_amended_every_close_schedules_reconnect wJustDisconnectedEx 1000 "bye").1,
   by decide, by decide,
   ((C2_amended_every_close_schedules_reconnect wJustDisconnectedEx 1000 "bye").2
     (by decide) (by decide)).1,
   ((C2_amended_every_close_schedules_reconnect wJustDisconnectedEx 1000 "bye").2
     (by decide) (by decide)).2⟩

/-- C3 counterexample: with `maxReconnectAttempts = 3`, after exactly three
consecutive unexpected disconnects the client has raised ZERO
`max_reconnect_reached` events (the claim demands exactly one) and still has
one reconnection attempt pending (the claim demands none). -/
theorem C3_counterexample_no_event_after_three_drops :
    traceEnabled (initWorld cfgEx) traceThreeDrops = true ∧
    (initWorld cfgEx).client.maxReconnectAttempts = 3 ∧
    (run (initWorld cfgEx) traceThreeDrops).2.events.count
      Event.maxReconnectReached = 0 ∧
    (run (initWorld cfgEx) traceThreeDrops).1.pendingTimers = 1 := by
  refine ⟨by decide, by decide, by decide, by decide⟩

/-- C3 amended: with `maxAttempts = 3` the first three consecutive
unexpected disconnects each schedule a reconnection and raise no
`MaxReconnectExceeded`; it is the FOURTH consecutive unexpected disconnect
that raises exactly one `max_reconnect_reached` and schedules nothing.  The
state is not terminal: whenever a close event arrives with the budget
already exhausted it emits `max_reconnect_reached` again (a later
caller-initiated connection whose transport drops produces a second event). -/
theorem C3_amended_event_on_budget_exhausted_close :
    (∀ (w : World) (code : Nat) (reason : String), w.liveSockets ≠ 0 →
      w.client.maxReconnectAttempts ≤ w.client.reconnectAttempts →
      (step w (Action.closeEvt code reason)).2.events =
        [Event.disconnected code reason, Event.maxReconnectReached] ∧
      (step w (Action.closeEvt code reason)).2.scheduled = [] ∧
      (step w (Action.closeEvt code reason)).1.pendingTimers = w.pendingTimers) ∧
    (traceEnabled (initWorld cfgEx) traceFourDrops = true ∧
     (run (initWorld cfgEx) traceFourDrops).2.events.count
       Event.maxReconnectReached = 1 ∧
     (run (initWorld cfgEx) traceFourDrops).1.pendingTimers = 0) ∧
    (traceEnabled (initWorld cfgEx) traceFourDropsThenRetry = true ∧
     (run (initWorld cfgEx) traceFourDropsThenRetry).2.events.count
       Event.maxReconnectReached = 2) := by
  refine ⟨fun w code reason hl hge => ?_, ⟨by decide, by decide, by decide⟩,
    ⟨by decide, by decide⟩⟩
  simp only [step, handleClose]
  rw [if_neg hl]
  rw [attemptReconnect_at_max { w.client with isConnected := false } hge]
  exact ⟨rfl, rfl, rfl⟩

/-- C3 amended witness: the universally quantified part instantiated at the
world where the budget is spent and the caller opened one more connection
that then closes. -/
theorem C3_amended_event_on_budget_exhausted_close_witness :
    wBudgetSpentEx.liveSockets ≠ 0 ∧
    wBudgetSpentEx.client.maxReconnectAttempts ≤
      wBudgetSpentEx.client.reconnectAttempts ∧
    (step wBudgetSpentEx (Action.closeEvt 1006 "")).2.events =
      [Event.disconnected 1006 "", Event.maxReconnectReached] ∧
    (step wBudgetSpentEx (Action.closeEvt 1006 "")).2.scheduled = [] :=
  ⟨by decide, by decide,
   (C3_amended_event_on_budget_exhausted_close.1 wBudgetSpentEx 1006 ""
     (by decide) (by decide)).1,
   (C3_amended_event_on_budget_exhausted_close.1 wBudgetSpentEx 1006 ""
     (by decide) (by decide)).2.1⟩

/-- C4: for every reconnection attempt below the budget the counter is
incremented BEFORE the delay is computed and the scheduled backoff delay is
`2 ^ k * 1000` where `k` is the incremented counter (attempt number,
`baseDelay = 1000`); the counter is reset to 0 on every Active transition
(the `open` handler); and along every trace from a fresh client the counter
is never negative. -/
theorem C4_backoff_delay_and_counter :
    (∀ s : ClientState, s.reconnectAttempts < s.maxReconnectAttempts →
      attemptReconnect s =
        ({ s with reconnectAttempts := s.reconnectAttempts + 1 }, [],
         [2 ^ (s.reconnectAttempts + 1).toNat * 1000])) ∧
    (∀ s : ClientState, (handleOpen s).1.reconnectAttempts = 0) ∧
    (∀ (c : GeminiLiveConfig) (tr : List Action),
      0 ≤ (run (initWorld c) tr).1.client.reconnectAttempts) :=
  ⟨attemptReconnect_below, handleOpen_resets,
   fun c tr => run_attempts_nonneg tr (initWorld c) (by simp [initWorld])⟩

/-- C4 witness: at a client with one attempt already counted, the next
attempt increments to 2 and schedules `2 ^ 2 * 1000`; an open resets the
counter; a concrete three-drop trace keeps the counter non-negative. -/
theorem C4_backoff_delay_and_counter_witness :
    sAttemptOneEx.reconnectAttempts < sAttemptOneEx.maxReconnectAttempts ∧
    attemptReconnect sAttemptOneEx =
      ({ sAttemptOneEx with reconnectAttempts := sAttemptOneEx.reconnectAttempts + 1 },
       [], [2 ^ (sAttemptOneEx.reconnectAttempts + 1).toNat * 1000]) ∧
    (handleOpen sAttemptOneEx).1.reconnectAttempts = 0 ∧
    0 ≤ (run (initWorld cfgEx) traceThreeDrops).1.client.reconnectAttempts :=
  ⟨by decide,
   C4_backoff_delay_and_counter.1 sAttemptOneEx (by decide),
   C4_backoff_delay_and_counter.2.1 sAttemptOneEx,
   C4_backoff_delay_and_counter.2.2 cfgEx traceThreeDrops⟩

/-- C5 counterexample: an unexpected drop leaves one backoff timer pending;
the caller then calls `disconnect()`; the timer nevertheless fires and the
scheduled reconnection attempt executes, opening a new socket (id 1) and
installing it — the pending attempt is NOT suppressed once the client is
closed. -/
theorem C5_counterexample_pending_attempt_survives_disconnect :
    traceEnabled (initWorld cfgEx) traceDisconnectDuringBackoff = true ∧
    wAfterHangupEx.pendingTimers = 1 ∧
    wAfterHangupEx.client.ws = none ∧
    (run (initWorld cfgEx) traceDisconnectDuringBackoff).2.opened = [0, 1] ∧
    (run (initWorld cfgEx) traceDisconnectDuringBackoff).1.client.ws = some 1 := by
  refine ⟨by decide, by decide, by decide, by decide, by decide⟩

/-- C5 amended: `disconnect()` stores no timer handle and cancels nothing —
it leaves every pending backoff timer pending — and a pending timer, when it
fires, unconditionally executes `connect()`: it creates a new WebSocket and
installs it as the current socket, whatever state the client is in. -/
theorem C5_amended_timer_not_cancelled (w : World) :
    (step w Action.callDisconnect).1.pendingTimers = w.pendingTimers ∧
    (w.pendingTimers ≠ 0 →
      (step w Action.fireTimer).2.opened = [w.client.nextWsId] ∧
      (step w Action.fireTimer).1.client.ws = some w.client.nextWsId ∧
      (step w Action.fireTimer).1.pendingTimers = w.pendingTimers - 1) := by
  refine ⟨rfl, fun h => ?_⟩
  simp only [step]
  rw [if_neg h]
  exact ⟨rfl, rfl, rfl⟩

/-- C5 amended witness: instantiated at the world where the caller
disconnected while one backoff timer was pending. -/
theorem C5_amended_timer_not_cancelled_witness :
    (step wAfterHangupEx Action.callDisconnect).1.pendingTimers =
      wAfterHangupEx.pendingTimers ∧
    wAfterHangupEx.pendingTimers ≠ 0 ∧
    (step wAfterHangupEx Action.fireTimer).2.opened =
      [wAfterHangupEx.client.nextWsId] ∧
    (step wAfterHangupEx Action.fireTimer).1.client.ws =
      some wAfterHangupEx.client.nextWsId :=
  ⟨(C5_amended_timer_not_cancelled wAfterHangupEx).1, by decide,
   ((C5_amended_timer_not_cancelled wAfterHangupEx).2 (by decide)).1,
   ((C5_amended_timer_not_cancelled wAfterHangupEx).2 (by decide)).2.1⟩

/-- C6 counterexample: the queue holds `msgEx1` (enqueued first) then
`msgEx2`; one `processQueue` iteration whose transport write throws leaves
the queue as `[msgEx2, msgEx1]` — the failed message went to the BACK,
behind the later-enqueued message, not to the front as claimed. -/
theorem C6_counterexample_failed_send_goes_to_back :
    sFailEx.messageQueue = [msgEx1, msgEx2] ∧
    (processQueueStepFail sFailEx).1.messageQueue = [msgEx2, msgEx1] ∧
    [msgEx2, msgEx1] ≠ [msgEx1, msgEx2] := by
  refine ⟨by decide, by decide, by decide⟩

/-- C6 amended: a message whose transport write fails is pushed back to the
BACK of the Outbound Queue (`Array.prototype.push`): it is not lost, but it
moves behind every message currently in the queue, including ones enqueued
after it. -/
theorem C6_amended_failed_send_requeued_at_back (s : ClientState) (wid : Nat)
    (hw : s.ws = some wid) (hc : s.isConnected = true) :
    (∀ m : StreamMessage,
      sendMessage false m s =
        ({ s with messageQueue := s.messageQueue ++ [m] }, [], [])) ∧
    (∀ (m0 : StreamMessage) (rest : List StreamMessage),
      s.messageQueue = m0 :: rest →
      processQueueStepFail s =
        ({ s with messageQueue := rest ++ [m0] }, [], [])) := by
  constructor
  · intro m
    unfold sendMessage
    rw [hw]
    simp [hc]
  · intro m0 rest hq
    unfold processQueueStepFail
    rw [hq]
    simp only [hc, if_true]
    unfold sendMessage
    rw [show ClientState.ws { s with messageQueue := rest } = some wid from hw]
    simp [hc]

/-- C6 amended witness: instantiated at the connected two-message client. -/
theorem C6_amended_failed_send_requeued_at_back_witness :
    sFailEx.ws = some 0 ∧
    sFailEx.isConnected = true ∧
    sendMessage false msgEx1 sFailEx =
      ({ sFailEx with messageQueue := sFailEx.messageQueue ++ [msgEx1] }, [], []) ∧
    processQueueStepFail sFailEx =
      ({ sFailEx with messageQueue := [msgEx2] ++ [msgEx1] }, [], []) :=
  ⟨by decide, by decide,
   (C6_amended_failed_send_requeued_at_back sFailEx 0 (by decide) (by decide)).1 msgEx1,
   (C6_amended_failed_send_requeued_at_back sFailEx 0 (by decide) (by decide)).2
     msgEx1 [msgEx2] (by decide)⟩

/-- C7 counterexample: session id `A` is assigned, the connection drops
unexpectedly, the scheduled reconnection succeeds and the new remote session
announces id `B` — yet only one `session` event is ever raised (for `A`,
none for `B`) and the stored identity is still `A`: the identity is NOT
cleared on this disconnect and `SessionAssigned` is NOT raised again after
the successful reconnection. -/
theorem C7_counterexample_session_survives_unexpected_close :
    traceEnabled (initWorld cfgEx) traceSessionAcrossDrop = true ∧
    (run (initWorld cfgEx) traceSessionAcrossDrop).2.events.count
      (Event.session (some "A")) = 1 ∧
    (run (initWorld cfgEx) traceSessionAcrossDrop).2.events.count
      (Event.session (some "B")) = 0 ∧
    (run (initWorld cfgEx) traceSessionAcrossDrop).1.client.sessionId = some "A" := by
  refine ⟨by decide, by decide, by decide, by decide⟩

/-- C7 amended: the first inbound frame carrying a (truthy) session id while
the identity is unset sets it and raises `session`; once the identity is
set, no inbound frame raises `session` again or changes it.  The identity is
cleared only by the caller's `disconnect()` — an unexpected transport close
preserves it, so an automatic reconnection raises no new `SessionAssigned` —
while after a caller disconnect and a fresh connect the new session's id is
assigned and announced again. -/
theorem C7_amended_session_set_once_cleared_only_by_disconnect :
    (∀ (f : InFrame) (s : ClientState), truthy f.sessionId = true →
      truthy s.sessionId = false →
      handleMessage f s =
        ({ s with sessionId := f.sessionId },
         Event.session f.sessionId :: typedEvents f)) ∧
    (∀ (f : InFrame) (s : ClientState), truthy s.sessionId = true →
      (handleMessage f s).1 = s ∧
      ∀ sid, Event.session sid ∉ (handleMessage f s).2) ∧
    (∀ s : ClientState, (disconnect s).sessionId = none) ∧
    (∀ (s : ClientState) (code : Nat) (reason : String),
      (handleClose code reason s).1.sessionId = s.sessionId) ∧
    (traceEnabled (initWorld cfgEx) traceSessionAcrossHangup = true ∧
     (run (initWorld cfgEx) traceSessionAcrossHangup).2.events.count
       (Event.session (some "A")) = 1 ∧
     (run (initWorld cfgEx) traceSessionAcrossHangup).2.events.count
       (Event.session (some "B")) = 1) := by
  refine ⟨fun f s hf hs => ?_, fun f s hs => ?_, fun s => ?_,
    fun s code reason => ?_, by decide, by decide, by decide⟩
  · simp [handleMessage, hf, hs]
  · refine ⟨?_, fun sid => ?_⟩
    · simp [handleMessage, hs]
    · simp only [handleMessage, hs]
      simp [typedEvents_no_session]
  · unfold disconnect
    cases s.ws <;> rfl
  · unfold handleClose
    exact attemptReconnect_sessionId { s with isConnected := false }

/-- C7 amended witness: the assignment branch instantiated at frame `B`
arriving with the identity unset, and the no-reassignment branch at a client
already holding `A`. -/
theorem C7_amended_session_set_once_cleared_only_by_disconnect_witness :
    truthy frameB.sessionId = true ∧
    truthy (sSessionAEx.sessionId) = true ∧
    handleMessage frameB { sSessionAEx with sessionId := none } =
      ({ { sSessionAEx with sessionId := none } with sessionId := frameB.sessionId },
       Event.session frameB.sessionId ::
         typedEvents frameB) ∧
    (handleMessage frameB sSessionAEx).1 = sSessionAEx :=
  ⟨by decide, by decide,
   C7_amended_session_set_once_cleared_only_by_disconnect.1 frameB
     { sSessionAEx with sessionId := none } (by decide) (by decide),
   (C7_amended_session_set_once_cleared_only_by_disconnect.2.1 frameB
     sSessionAEx (by decide)).1⟩

/-- C8 counterexample: `connect()` called while the first connection is
Active is not a no-op — it creates and installs a SECOND WebSocket (ids 0
and 1 both created, two sockets live, the stored handle replaced by the new
socket 1). -/
theorem C8_counterexample_double_connect_opens_second_socket :
    traceEnabled (initWorld cfgEx) traceDoubleConnect = true ∧
    (run (initWorld cfgEx) traceDoubleConnect).1.client.isConnected = true ∧
    (run (initWorld cfgEx) traceDoubleConnect).2.opened = [0, 1] ∧
    (run (initWorld cfgEx) traceDoubleConnect).1.liveSockets = 2 ∧
    (run (initWorld cfgEx) traceDoubleConnect).1.client.ws = some 1 := by
  refine ⟨by decide, by decide, by decide, by decide, by decide⟩

/-- C8 amended: `connect()` is NOT idempotent — it has no guard on the
current state, so every call, including while already Connecting or Active,
creates a fresh underlying WebSocket and replaces the stored handle with
it. -/
theorem C8_amended_connect_always_opens_new_socket (w : World) :
    (step w Action.callConnect).1.client.ws = some w.client.nextWsId ∧
    (step w Action.callConnect).1.liveSockets = w.liveSockets + 1 ∧
    (step w Action.callConnect).2.opened = [w.client.nextWsId] :=
  ⟨rfl, rfl, rfl⟩

/-- C9: `interrupt()` is written to the transport immediately if and only if
the client is Active (connected with a socket installed); otherwise nothing
is written and the client state — the Outbound Queue included — is left
untouched, so a dropped interrupt is never queued and an entire later run
behaves exactly as if the call had never happened (it is dropped, not
deferred). -/
theorem C9_interrupt_immediate_iff_active_else_dropped (w : World) (ts : Nat) :
    (step w (Action.callInterrupt ts)).1 = w ∧
    (∀ wid, w.client.ws = some wid → w.client.isConnected = true →
      (step w (Action.callInterrupt ts)).2.wire = [(wid, Wire.interruptFrame ts)]) ∧
    (w.client.ws = none ∨ w.client.isConnected = false →
      (step w (Action.callInterrupt ts)).2 = Output.empty) ∧
    (w.client.ws = none ∨ w.client.isConnected = false →
      ∀ rest, run w (Action.callInterrupt ts :: rest) = run w rest) := by
  have hdrop : w.client.ws = none ∨ w.client.isConnected = false →
      interrupt ts w.client = [] := by
    intro h
    unfold interrupt
    rcases h with h | h
    · rw [h]
    · cases hw : w.client.ws with
      | none => rfl
      | some wid => simp [h]
  refine ⟨rfl, fun wid hw hc => ?_, fun h => ?_, fun h rest => ?_⟩
  · simp only [step, interrupt]
    rw [hw]
    simp [hc]
  · simp only [step]
    rw [hdrop h]
    rfl
  · simp only [run]
    rw [show (step w (Action.callInterrupt ts)).1 = w from rfl]
    have hout : (step w (Action.callInterrupt ts)).2 = Output.empty := by
      simp only [step]
      rw [hdrop h]
      rfl
    rw [hout, Output.empty_append]

/-- C9 witness: on the Active world the interrupt frame is written at once;
on a fresh (Disconnected) client it is dropped and a subsequent run is
unchanged. -/
theorem C9_interrupt_immediate_iff_active_else_dropped_witness :
    wActiveEx.client.ws = some 0 ∧
    wActiveEx.client.isConnected = true ∧
    (step wActiveEx (Action.callInterrupt 5)).2.wire =
      [(0, Wire.interruptFrame 5)] ∧
    (initWorld cfgEx).client.ws = none ∧
    run (initWorld cfgEx) (Action.callInterrupt 5 :: [Action.callSendText "x" 6]) =
      run (initWorld cfgEx) [Action.callSendText "x" 6] :=
  ⟨by decide, by decide,
   (C9_interrupt_immediate_iff_active_else_dropped wActiveEx 5).2.1 0
     (by decide) (by decide),
   by decide,
   (C9_interrupt_immediate_iff_active_else_dropped (initWorld cfgEx) 5).2.2.2
     (Or.inl (by decide)) [Action.callSendText "x" 6]⟩

/-- C10: the constructor replaces a caller-supplied
`interruptionThreshold` of 0 — a valid value of the spec's `[0,1]` range —
by the default `0.5` (the `||` default treats every falsy number this way),
while `vadEnabled` is disabled only by an explicit `false`
(`config.vadEnabled !== false`). -/
theorem C10_zero_threshold_silently_defaulted :
    (∀ c : GeminiLiveConfig, c.interruptionThreshold = some 0 →
      (mkRequiredConfig c).interruptionThreshold = 1/2) ∧
    (∀ c : GeminiLiveConfig,
      ((mkRequiredConfig c).vadEnabled = false ↔ c.vadEnabled = some false)) := by
  constructor
  · intro c h
    simp [mkRequiredConfig, jsOrRat, h]
  · intro c
    cases hv : c.vadEnabled with
    | none => simp [mkRequiredConfig, hv]
    | some b => cases b <;> simp [mkRequiredConfig, hv]

/-- C10 witness: a config that explicitly asks for threshold 0 and VAD off
ends up with threshold `0.5` and VAD disabled. -/
theorem C10_zero_threshold_silently_defaulted_witness :
    cfgZeroEx.interruptionThreshold = some 0 ∧
    (mkRequiredConfig cfgZeroEx).interruptionThreshold = 1/2 ∧
    ((mkRequiredConfig cfgZeroEx).vadEnabled = false ↔
      cfgZeroEx.vadEnabled = some false) :=
  ⟨rfl,
   C10_zero_threshold_silently_defaulted.1 cfgZeroEx rfl,
   C10_zero_threshold_silently_defaulted.2 cfgZeroEx⟩

end AgentFactory.GeminiLive
